import Mathlib

/-!
Shallow embedding of the gq-gmc telemetry bridge (src/main.go).

The program reads 2-byte event frames from a Geiger counter over a serial
transport, masks them with 0x3FFF, accumulates event counts, and every 60
seconds flushes the total as a counts-per-minute sample to InfluxDB.

Mapping of the source to the definitions below:
- main.go line 18 (heartbeatMask) and lines 84-85  -> decodeFrame
- main.go lines 66-88 (producer goroutine)         -> producerStep, producerRun
- main.go lines 90-108 (select loop)               -> LoopState, mainStep, runLoop
- main.go lines 99-106 (flush branch)              -> flushBatch
- main.go lines 111-136 (sendToInflux)             -> sendToInflux
- main.go lines 39-48 (transport selection)        -> selectTransport
- main.go lines 49-63 (defers and heartbeat cmds)  -> deferredOps, runPortTrace
- main.go lines 154-169 (fakeSerial)               -> fakeSerialRead

Go bytes are modelled as naturals with an explicit % 256; Go's float64
constant 0.00625 is modelled as the exact rational it denotes. Go's cpm is
an int that only ever accumulates values below 2^14, so it is modelled as a
natural number (overflow of a 64-bit int is unreachable on the modelled
traces and is not modelled).
-/

/-- main.go line 18: `const heartbeatMask = 0x3FFF`. -/
def heartbeatMask : Nat := 0x3FFF

/-- `binary.BigEndian.Uint16(buf)` for a 2-byte buffer `b0, b1`: the
big-endian unsigned 16-bit value. The `% 256` records that Go bytes are
8 bits wide. -/
def binaryBigEndianUint16 (b0 b1 : Nat) : Nat :=
  ((b0 % 256) <<< 8) ||| (b1 % 256)

/-- main.go lines 84-85: `val := binary.BigEndian.Uint16(buf[:]); val &= heartbeatMask`. -/
def decodeFrame (b0 b1 : Nat) : Nat :=
  binaryBigEndianUint16 b0 b1 &&& heartbeatMask

/-- Outcome of one `port.Read(buf[:])` call (main.go line 70): end of
stream, a non-EOF error, or a successful return carrying the `n` bytes
written into the buffer (`bytes.length = n ≤ 2`). -/
inductive ReadOutcome where
  | eof
  | rerr (msg : String)
  | ok (bytes : List Nat)
deriving DecidableEq

/-- What one iteration of the producer loop does: return (ending the
goroutine, whose deferred `close(counts)` then closes the channel), loop
again without producing anything, or send a decoded count on the channel. -/
inductive ProdAct where
  | halt
  | skip
  | emit (c : Nat)
deriving DecidableEq

/-- One iteration of the producer goroutine, main.go lines 68-87.
`var buf [2]byte` zeroes the buffer each iteration and `Read` fills its
first `bytes.length` cells, so a decode sees byte `i` of the read when
`i < bytes.length` and `0` otherwise. Only `n == 0` is skipped; `err == io.EOF`
returns; any other error continues. -/
def producerStep : ReadOutcome → ProdAct
  | .eof => .halt
  | .rerr _ => .skip
  | .ok bytes =>
    if bytes.length = 0 then .skip
    else .emit (decodeFrame (bytes.getD 0 0) (bytes.getD 1 0))

/-- The producer goroutine run on a list of read outcomes: the list of
counts sent on the channel, and whether the goroutine returned (running its
deferred `close(counts)`). -/
def producerRun : List ReadOutcome → List Nat × Bool
  | [] => ([], false)
  | r :: rs =>
    match producerStep r with
    | .halt => ([], true)
    | .skip => producerRun rs
    | .emit c => (c :: (producerRun rs).1, (producerRun rs).2)

/-- An InfluxDB field value: Go `int` or `float64` (the latter modelled as
the exact rational). -/
inductive FieldVal where
  | int (i : Int)
  | float (q : ℚ)
deriving DecidableEq

/-- One point as built by `influxdb.NewPoint` in main.go line 125. -/
structure InfluxPoint where
  measurement : String
  tags : List (String × String)
  fields : List (String × FieldVal)
deriving DecidableEq

/-- The batch built by `influxdb.NewBatchPoints` in main.go lines 113-129. -/
structure BatchPoints where
  database : String
  precision : String
  points : List InfluxPoint
deriving DecidableEq

/-- main.go lines 111-136: `sendToInflux`, modelled as the batch it submits
to the sink. -/
def sendToInflux (cpm : Int) (doseRate : ℚ) : BatchPoints :=
  { database := "sensors"
    precision := "s"
    points := [{ measurement := "measurements"
                 tags := [("location", "Office")]
                 fields := [("geiger_counter_cpm", FieldVal.int cpm),
                            ("geiger_counter_dose_rate", FieldVal.float doseRate)] }] }

/-- main.go lines 100-102: the flush computes
`doseRate := float64(cpm) * 0.00625` and calls `sendToInflux(client, cpm, doseRate)`. -/
def flushBatch (c : Nat) : BatchPoints :=
  sendToInflux (c : Int) ((c : ℚ) * 0.00625)

/-- An event the main select loop (main.go lines 92-108) can wake on: an OS
signal, a count received from the open channel, a receive on the closed
channel (Go then yields the zero value 0 of uint16), or a 60-second timer
tick. The tick carries whether the sink write succeeds, which the code only
logs. -/
inductive MainEv where
  | sig
  | count (c : Nat)
  | closedRecv
  | tick (sinkOk : Bool)
deriving DecidableEq

/-- State of the main loop: the accumulator `cpm` (main.go line 90), the
batches submitted to the sink so far, and whether the loop is still
running (`return` at line 96 ends it). -/
structure LoopState where
  cpm : Nat
  flushed : List BatchPoints
  running : Bool
deriving DecidableEq

/-- The state at main.go line 90: `cpm := 0`, nothing flushed, loop live. -/
def initState : LoopState := { cpm := 0, flushed := [], running := true }

/-- One select-branch execution, main.go lines 93-107. On a signal the loop
returns; on a count `cpm += int(count)`; on a closed-channel receive Go
delivers the zero value, so `cpm += 0`; on a tick the sample is computed
from the current accumulator, submitted, and `cpm = 0` afterwards whether
or not the sink write succeeded. -/
def mainStep (s : LoopState) : MainEv → LoopState
  | .sig => { s with running := false }
  | .count c => { s with cpm := s.cpm + c }
  | .closedRecv => { s with cpm := s.cpm + 0 }
  | .tick _ => { s with flushed := s.flushed ++ [flushBatch s.cpm], cpm := 0 }

/-- The main loop consuming a list of events in order; once the loop has
returned, remaining events are never processed. -/
def runLoop : LoopState → List MainEv → LoopState
  | s, [] => s
  | s, e :: es => if s.running then runLoop (mainStep s e) es else s

/-- The transport chosen at startup. -/
inductive Transport where
  | real (dev : String) (baud : Int)
  | synthetic
deriving DecidableEq

/-- main.go lines 39-48: `if *sensorDevice != "" && *sensorBaud > 0` opens
the serial port, else `s = &fakeSerial{}`. -/
def selectTransport (dev : String) (baud : Int) : Transport :=
  if dev ≠ "" ∧ baud > 0 then Transport.real dev baud else Transport.synthetic

/-- main.go lines 157-161: `fakeSerial.Read` always fills `p[0] = 0x80,
p[1] = 0x00` and returns `n = 2`. -/
def fakeSerialRead : Nat × List Nat := (2, [0x80, 0x00])

/-- An operation observed on the transport. -/
inductive PortOp where
  | write (data : String)
  | close
deriving DecidableEq

/-- main.go line 60: the heartbeat-enable command. -/
def heartbeatOn : String := "<HEARTBEAT1>>"

/-- main.go line 62: the heartbeat-disable command. -/
def heartbeatOff : String := "<HEARTBEAT0>>"

/-- Transport operations performed by a main-loop event: none. Count events
touch only the channel and the accumulator; ticks write only to the sink;
the signal branch just returns. -/
def evPortOps : MainEv → List PortOp
  | _ => []

/-- The transport operations of the loop over a run of events. -/
def loopPortTrace : List MainEv → List PortOp
  | [] => []
  | e :: es => evPortOps e ++ loopPortTrace es

/-- The deferred actions touching the transport, pushed in source order:
`defer s.Close()` at main.go line 49, then the deferred
`fmt.Fprintf(port, "<HEARTBEAT0>>")` at line 62. Go runs defers in LIFO
order, so on return the disable write happens and then the close. -/
def deferredOps : List PortOp := [PortOp.close, PortOp.write heartbeatOff]

/-- The whole transport-operation trace of a run that processes `es` and
then receives a termination signal: the startup heartbeat-enable write
(line 60), the loop's transport operations, then the defers in LIFO order. -/
def runPortTrace (es : List MainEv) : List PortOp :=
  PortOp.write heartbeatOn :: (loopPortTrace es ++ deferredOps.reverse)

/-- The data of the writes of a trace, in order. -/
def writesOf (t : List PortOp) : List String :=
  t.filterMap fun op =>
    match op with
    | .write d => some d
    | .close => none

/-! ## Helper lemmas -/

/-- Count events leave the loop live and add to the accumulator. -/
theorem runLoop_counts (cs : List Nat) (s : LoopState) (h : s.running = true) :
    runLoop s (cs.map MainEv.count) = { s with cpm := s.cpm + cs.sum } := by
  induction cs generalizing s with
  | nil => simp [runLoop]
  | cons c cs ih =>
      have h2 := ih ⟨s.cpm + c, s.flushed, true⟩ rfl
      simp [runLoop, h, mainStep, h2, Nat.add_assoc]

/-- Once the loop has returned, no event is processed any more. -/
theorem runLoop_halted (es : List MainEv) (s : LoopState) (h : s.running = false) :
    runLoop s es = s := by
  cases es with
  | nil => rfl
  | cons e es => simp [runLoop, h]

/-- A closed-channel receive delivers the zero value and changes nothing. -/
theorem mainStep_closedRecv (s : LoopState) : mainStep s MainEv.closedRecv = s := by
  simp [mainStep]

/-- The loop performs no transport operation, whatever events it processes. -/
theorem loopPortTrace_eq_nil (es : List MainEv) : loopPortTrace es = [] := by
  induction es with
  | nil => rfl
  | cons e es ih => simp [loopPortTrace, evPortOps, ih]

/-! ## Claims -/

/-- C1: for every 2-byte frame read from the transport, the decoder
produces the big-endian unsigned 16-bit value masked with 0x3FFF, and the
top two bits of the result are always cleared. -/
theorem c1_frame_decoder (b0 b1 : Nat) (h0 : b0 < 256) (h1 : b1 < 256) :
    decodeFrame b0 b1 = ((b0 <<< 8) ||| b1) &&& 0x3FFF ∧ decodeFrame b0 b1 < 0x4000 := by
  constructor
  · unfold decodeFrame binaryBigEndianUint16 heartbeatMask
    rw [Nat.mod_eq_of_lt h0, Nat.mod_eq_of_lt h1]
  · have hle : decodeFrame b0 b1 ≤ heartbeatMask := Nat.and_le_right
    exact lt_of_le_of_lt hle (by decide)

theorem c1_frame_decoder_witness :
    (0x80 < 256 ∧ 0x00 < 256) ∧
      (decodeFrame 0x80 0x00 = ((0x80 <<< 8) ||| 0x00) &&& 0x3FFF ∧
        decodeFrame 0x80 0x00 < 0x4000) :=
  ⟨by decide, c1_frame_decoder 0x80 0x00 (by decide) (by decide)⟩

/-- C2: starting from an accumulator of 0 with the loop live, consuming the
counts c1..cN leaves the accumulator at their sum, and immediately after
any flush the accumulator is exactly 0. -/
theorem c2_accumulator_sum (cs : List Nat) (s t : LoopState) (ok : Bool)
    (hrun : s.running = true) (h0 : s.cpm = 0) :
    (runLoop s (cs.map MainEv.count)).cpm = cs.sum ∧
      (mainStep t (MainEv.tick ok)).cpm = 0 := by
  refine ⟨?_, rfl⟩
  rw [runLoop_counts cs s hrun]
  simp [h0]

theorem c2_accumulator_sum_witness :
    (initState.running = true ∧ initState.cpm = 0) ∧
      ((runLoop initState ([3, 5, 7].map MainEv.count)).cpm = [3, 5, 7].sum ∧
        (mainStep initState (MainEv.tick false)).cpm = 0) :=
  ⟨⟨rfl, rfl⟩, c2_accumulator_sum [3, 5, 7] initState initState false rfl rfl⟩

/-- C3: a tick whose sink write fails still flushes the current total and
resets the accumulator to 0, so the next interval accumulates from 0, not
from the leftover total. -/
theorem c3_reset_unconditional (s : LoopState) (cs : List Nat) (hrun : s.running = true) :
    (mainStep s (MainEv.tick false)).cpm = 0 ∧
      (mainStep s (MainEv.tick false)).flushed = s.flushed ++ [flushBatch s.cpm] ∧
      (runLoop (mainStep s (MainEv.tick false)) (cs.map MainEv.count)).cpm = cs.sum := by
  refine ⟨rfl, rfl, ?_⟩
  have h2 : (mainStep s (MainEv.tick false)).running = true := hrun
  rw [runLoop_counts cs _ h2]
  simp [mainStep]

theorem c3_reset_unconditional_witness :
    ((⟨42, [], true⟩ : LoopState).running = true) ∧
      ((mainStep ⟨42, [], true⟩ (MainEv.tick false)).cpm = 0 ∧
        (mainStep ⟨42, [], true⟩ (MainEv.tick false)).flushed = [] ++ [flushBatch 42] ∧
        (runLoop (mainStep ⟨42, [], true⟩ (MainEv.tick false)) ([5].map MainEv.count)).cpm
          = [5].sum) :=
  ⟨rfl, c3_reset_unconditional ⟨42, [], true⟩ [5] rfl⟩

/-- C4, counterexample: a successful read of exactly one byte is NOT
skipped — only `n == 0` is skipped — so a short read of the byte 0x01 emits
the count 256 (the second buffer byte is still 0). -/
theorem c4_short_read_cex :
    ([(1 : Nat)].length < 2) ∧
      producerStep (ReadOutcome.ok [1]) = ProdAct.emit 256 ∧
      producerStep (ReadOutcome.ok [1]) ≠ ProdAct.skip := by
  decide

/-- C4, amended: a zero-length read (and likewise a non-EOF read error)
produces no count and the loop just retries, so such reads contribute
nothing to the channel and never advance the accumulator. -/
theorem c4_zero_length_read (rs : List ReadOutcome) (msg : String) :
    producerStep (ReadOutcome.ok []) = ProdAct.skip ∧
      producerRun (ReadOutcome.ok [] :: rs) = producerRun rs ∧
      producerStep (ReadOutcome.rerr msg) = ProdAct.skip ∧
      producerRun (ReadOutcome.rerr msg :: rs) = producerRun rs :=
  ⟨rfl, rfl, rfl, rfl⟩

/-- C5: every flush submits the batch built from the current accumulator
with dose rate exactly cpm * 0.00625; at cpm = 100 the dose rate is exactly
0.625 and at cpm = 0 it is exactly 0. -/
theorem c5_dose_rate (s : LoopState) (ok : Bool) (c : Nat) :
    (mainStep s (MainEv.tick ok)).flushed = s.flushed ++ [flushBatch s.cpm] ∧
      flushBatch c = sendToInflux (c : Int) ((c : ℚ) * 0.00625) ∧
      flushBatch 100 = sendToInflux 100 (0.625 : ℚ) ∧
      flushBatch 0 = sendToInflux 0 (0 : ℚ) := by
  refine ⟨rfl, rfl, ?_, ?_⟩
  · show sendToInflux ((100 : Nat) : Int) (((100 : Nat) : ℚ) * 0.00625)
        = sendToInflux 100 (0.625 : ℚ)
    norm_num
  · show sendToInflux ((0 : Nat) : Int) (((0 : Nat) : ℚ) * 0.00625)
        = sendToInflux 0 (0 : ℚ)
    norm_num

/-- C6, counterexample: the code also requires a positive baud rate, so a
non-empty device path with baud 0 still selects the synthetic transport —
refuting "synthetic exactly when the device path is empty". -/
theorem c6_transport_cex :
    selectTransport "/dev/ttyUSB0" 0 = Transport.synthetic ∧ "/dev/ttyUSB0" ≠ "" := by
  constructor
  · rfl
  · decide

/-- C6, amended: the synthetic transport is used exactly when the device
path is empty or the configured baud rate is not positive. -/
theorem c6_transport_selection (dev : String) (baud : Int) :
    selectTransport dev baud = Transport.synthetic ↔ (dev = "" ∨ baud ≤ 0) := by
  unfold selectTransport
  by_cases hd : dev = ""
  · simp [hd]
  · by_cases hb : (0 : Int) < baud
    · rw [if_pos ⟨hd, hb⟩]
      constructor
      · intro h
        exact absurd h (by simp)
      · rintro (h | h)
        · exact absurd h hd
        · exact absurd hb (not_lt.mpr h)
    · rw [if_neg (by tauto)]
      simp [hd, not_lt.mp hb]

/-- C7: for any run of the main loop that processes events and then
receives a termination signal, the transport trace is the heartbeat-enable
write, then the deferred heartbeat-disable write, then the close — the
disable command is the last write before the transport is closed, also
mid-interval. -/
theorem c7_disable_last_write (es : List MainEv) :
    runPortTrace es = [PortOp.write heartbeatOn, PortOp.write heartbeatOff, PortOp.close] ∧
      (writesOf (runPortTrace es)).getLast? = some heartbeatOff ∧
      (runPortTrace es).getLast? = some PortOp.close := by
  have h1 : runPortTrace es
      = [PortOp.write heartbeatOn, PortOp.write heartbeatOff, PortOp.close] := by
    simp [runPortTrace, loopPortTrace_eq_nil es, deferredOps]
  refine ⟨h1, ?_, ?_⟩ <;> rw [h1] <;> rfl

/-- C8: every flush appends exactly one batch built from the accumulator:
database "sensors", second precision, a single point with measurement
"measurements", tag location=Office, the integer field geiger_counter_cpm
holding the accumulator total and the float field geiger_counter_dose_rate
holding the derived dose rate. -/
theorem c8_flush_payload (s : LoopState) (ok : Bool) (c : Nat) :
    (mainStep s (MainEv.tick ok)).flushed = s.flushed ++ [flushBatch s.cpm] ∧
      (flushBatch c).database = "sensors" ∧
      (flushBatch c).precision = "s" ∧
      (flushBatch c).points =
        [{ measurement := "measurements"
           tags := [("location", "Office")]
           fields := [("geiger_counter_cpm", FieldVal.int (c : Int)),
                      ("geiger_counter_dose_rate", FieldVal.float ((c : ℚ) * 0.00625))] }] :=
  ⟨rfl, rfl, rfl, rfl⟩

/-- C9: end-of-stream makes the producer return (its defer closing the
channel) without emitting further counts; the main loop keeps its running
flag, closed-channel receives never change the accumulator (in one step or
over any number of steps), and a later tick still flushes whatever value
the accumulator reached. -/
theorem c9_end_of_stream (s : LoopState) (rs : List ReadOutcome) (n : Nat) (ok : Bool) :
    producerRun (ReadOutcome.eof :: rs) = ([], true) ∧
      (mainStep s MainEv.closedRecv).cpm = s.cpm ∧
      (mainStep s MainEv.closedRecv).running = s.running ∧
      (runLoop s (List.replicate n MainEv.closedRecv)).cpm = s.cpm ∧
      (mainStep s (MainEv.tick ok)).flushed = s.flushed ++ [flushBatch s.cpm] := by
  refine ⟨rfl, rfl, rfl, ?_, rfl⟩
  induction n generalizing s with
  | zero => rfl
  | succ n ih =>
      by_cases h : s.running = true
      · simp [List.replicate, runLoop, h, mainStep_closedRecv, ih]
      · simp [List.replicate, runLoop, h]

/-- C10: on a termination signal the loop returns at once — no final flush
is submitted, the accumulator's partial total is discarded, and any events
still pending behind the signal are never processed. -/
theorem c10_no_final_flush (s : LoopState) (es : List MainEv) (h : s.running = true) :
    (mainStep s MainEv.sig).flushed = s.flushed ∧
      (mainStep s MainEv.sig).running = false ∧
      (mainStep s MainEv.sig).cpm = s.cpm ∧
      runLoop s (MainEv.sig :: es) = mainStep s MainEv.sig := by
  refine ⟨rfl, rfl, rfl, ?_⟩
  have h2 : (mainStep s MainEv.sig).running = false := rfl
  simp [runLoop, h, runLoop_halted es _ h2]

theorem c10_no_final_flush_witness :
    ((⟨7, [], true⟩ : LoopState).running = true) ∧
      ((mainStep ⟨7, [], true⟩ MainEv.sig).flushed = [] ∧
        (mainStep ⟨7, [], true⟩ MainEv.sig).running = false ∧
        (mainStep ⟨7, [], true⟩ MainEv.sig).cpm = 7 ∧
        runLoop ⟨7, [], true⟩ [MainEv.sig, MainEv.count 9, MainEv.tick true]
          = mainStep ⟨7, [], true⟩ MainEv.sig) :=
  ⟨rfl, c10_no_final_flush ⟨7, [], true⟩ [MainEv.count 9, MainEv.tick true] rfl⟩
